import Mathlib

/-!
Verification of the CloudFront custom-resource lambda handler
(`src/lambdas/CloudFrontCR/lambda_handler.py`) against its natural-language
specification.

The Python source is embedded shallowly: JSON-like runtime values become the
`Value` type, the schema document (`ApiStructure.json`, absent from the
repository snapshot) becomes the `SchemaDict` type supplied through the
environment, fallible Python operations return `Except PyErr`, and the
handler's externally visible actions (provider RPCs, scheduler calls,
completion signals) are accumulated in an effect trace.

Notes on fidelity to the source, which is unfinished and contains several
mechanical slips:

* The brace-delimited blocks (`if (wait_for_status) { ... }`) are read as the
  conditional blocks they evidently denote; they are not valid Python syntax.
* `convert_structure` is declared with a single parameter, `properties`,
  which the loop variable immediately shadows; its body reads the free name
  `provided_structure` (lines 339, 355, 356), which is defined nowhere in
  the module.  It is therefore embedded literally: it raises `NameError` on
  the first field of any nonempty schema document and never reaches its
  per-field branch cascade (whose recursive self-calls would, in turn, pass
  two arguments to the one-parameter function and raise `TypeError`).  The
  first parameter of the embedding stands for the parsed `ApiStructure.json`
  document the source reads at line 333.
* `generate_random_string` calls `datetime.datetime.now()`, but the
  `datetime` module is never imported anywhere in the file, so the call is
  embedded as raising `NameError`.
* Python semantics that the claims depend on are modelled explicitly:
  truthiness (`if (wait_for_status)`), `dict.get` with a default,
  `in` membership, `len`, iteration, and the fact that a function body that
  falls off its end returns `None`.
* Call-site faults that the source actually contains are modelled literally:
  the handler passes four positional arguments to the three-parameter
  functions `_update_distribution` and `_delete_distribution` (a `TypeError`
  in Python), and `_create_distribution`'s polling-rule call references the
  undefined names `physical_resource_id` and `distribution_arn` (a
  `NameError`).  These are raised at the corresponding program points in the
  embedding, exactly as a Python interpreter would raise them.
* Strings are modelled over ASCII: `str.lower` and `str.isnumeric` are
  embedded as ASCII case folding and the all-digits test.  Every string the
  handler manipulates in the claims is ASCII.
-/

namespace CloudFrontCR

/-! ## JSON-like runtime values

A Python object tree as the handler sees it: `None`, booleans, integers,
strings, lists and string-keyed dicts (insertion ordered, as in Python).
The three types are one mutual family so structural recursion and kernel
evaluation work throughout. -/

mutual
inductive Value where
  | vnone : Value
  | vbool : Bool → Value
  | vint : Int → Value
  | vstr : String → Value
  | vlist : VList → Value
  | vdict : VDict → Value
  deriving DecidableEq, Repr
inductive VList where
  | nil : VList
  | cons : Value → VList → VList
  deriving DecidableEq, Repr
inductive VDict where
  | nil : VDict
  | cons : String → Value → VDict → VDict
  deriving DecidableEq, Repr
end

/-- Convert a Lean list of values into the embedded list type. -/
def VList.ofList : List Value → VList
  | [] => .nil
  | v :: tl => .cons v (VList.ofList tl)

/-- Convert the embedded list type back into a Lean list. -/
def VList.toList : VList → List Value
  | .nil => []
  | .cons v tl => v :: VList.toList tl

/-- Convert a Lean association list into the embedded dict type. -/
def VDict.ofList : List (String × Value) → VDict
  | [] => .nil
  | (k, v) :: tl => .cons k v (VDict.ofList tl)

/-- Keys of a dict, in insertion order. -/
def VDict.keys : VDict → List String
  | .nil => []
  | .cons k _ tl => k :: VDict.keys tl

/-- First binding of a key in a dict, as Python `d[k]` / `d.get(k)` would
find it (Python dicts cannot hold a key twice, so on well-formed inputs the
first binding is the only one). -/
def lookupD : VDict → String → Option Value
  | .nil, _ => none
  | .cons k v tl, k' => if k = k' then some v else lookupD tl k'

/-- Python `d[k] = v`: overwrite the existing binding in place (keeping its
position, as Python dicts do) or append a new one. -/
def setD : VDict → String → Value → VDict
  | .nil, k, v => .cons k v .nil
  | .cons k0 v0 tl, k, v =>
      if k0 = k then .cons k0 v tl else .cons k0 v0 (setD tl k v)

/-- Build a dict literal from a Lean association list. -/
def mkDict (l : List (String × Value)) : Value := .vdict (VDict.ofList l)

/-- Build a list literal from a Lean list. -/
def mkList (l : List Value) : Value := .vlist (VList.ofList l)

/-- Python truthiness: `None`, `False`, `0`, `""`, `[]` and `\x7b\x7d` are
falsy; everything else is truthy.  This is the test `if (wait_for_status)`
performs in `_create_distribution` (line 107), and the one the converter's
unreachable loop body writes at line 345. -/
def pyTruthy : Value → Bool
  | .vnone => false
  | .vbool b => b
  | .vint n => n != 0
  | .vstr s => s != ""
  | .vlist xs => xs != .nil
  | .vdict es => es != .nil

/-! ## Python exceptions

The exception classes the embedded code can raise.  All of them derive from
`Exception` in Python, so the handler's `except Exception` clause catches
every one of them; `exit(0)` (`SystemExit`) is never reached in the source
as written, because every path to it first raises one of the errors below
(see `_create_distribution` and the handler's dispatch).  `rpcError` stands
for any exception thrown by a boto3 client call, as chosen by the
environment. -/

inductive PyErr where
  | keyError : String → PyErr
  | typeError : String → PyErr
  | nameError : String → PyErr
  | attributeError : String → PyErr
  | rpcError : String → PyErr
  deriving DecidableEq, Repr

/-- Python `str(e)` for the exception, used by the handler's
`message = str(e)` (line 69).  The rendering is simplified to the carried
message (Python would additionally quote the key of a `KeyError`); all the
claims need is that it is a deterministic rendering of the cause. -/
def strE : PyErr → String
  | .keyError k => k
  | .typeError m => m
  | .nameError m => m
  | .attributeError m => m
  | .rpcError m => m

/-- Result of a Python expression: a value or a raised exception. -/
abbrev Exc (α : Type) := Except PyErr α

instance {α : Type} [DecidableEq α] : DecidableEq (Exc α) := fun a b =>
  match a, b with
  | .ok x, .ok y =>
      if h : x = y then .isTrue (by rw [h]) else .isFalse (by intro hc; cases hc; exact h rfl)
  | .ok _, .error _ => .isFalse (by intro hc; cases hc)
  | .error _, .ok _ => .isFalse (by intro hc; cases hc)
  | .error e, .error f =>
      if h : e = f then .isTrue (by rw [h]) else .isFalse (by intro hc; cases hc; exact h rfl)

/-! ## Python primitive operations on values -/

/-- Python subscript `v[k]` with a string key: dict lookup raising
`KeyError` when the key is missing; any non-dict raises `TypeError`
(strings and lists demand integer indices, scalars are not subscriptable). -/
def pyGetItem (v : Value) (k : String) : Exc Value :=
  match v with
  | .vdict es =>
      match lookupD es k with
      | some x => .ok x
      | none => .error (.keyError k)
  | .vstr _ => .error (.typeError "string indices must be integers")
  | .vlist _ => .error (.typeError "list indices must be integers or slices, not str")
  | _ => .error (.typeError "object is not subscriptable")

/-- Python `v.get(k, dflt)`: only dicts have `.get`; anything else raises
`AttributeError`. -/
def pyGetDefault (v : Value) (k : String) (dflt : Value) : Exc Value :=
  match v with
  | .vdict es => .ok ((lookupD es k).getD dflt)
  | _ => .error (.attributeError "object has no attribute get")

/-- Python `v[k] = x` with a string key: dicts are updated; anything else
raises `TypeError` (no item assignment). -/
def pySetItem (v : Value) (k : String) (x : Value) : Exc Value :=
  match v with
  | .vdict es => .ok (.vdict (setD es k x))
  | _ => .error (.typeError "object does not support item assignment")

/-- Python membership `k in v` for a string `k`: key test on dicts,
substring test on strings, element test on lists; scalars raise
`TypeError`. -/
def pyContains (v : Value) (k : String) : Exc Bool :=
  match v with
  | .vdict es => .ok (es.keys.contains k)
  | .vstr s => .ok (decide (k.data.IsInfix s.data))
  | .vlist xs => .ok (xs.toList.contains (.vstr k))
  | _ => .error (.typeError "argument is not iterable")

/-- Python `len(v)`: length of dicts, lists and strings; scalars raise
`TypeError`. -/
def pyLen (v : Value) : Exc Nat :=
  match v with
  | .vdict es => .ok es.keys.length
  | .vlist xs => .ok xs.toList.length
  | .vstr s => .ok s.length
  | _ => .error (.typeError "object has no len")

/-- Python iteration `for x in v`: lists yield elements, dicts yield keys,
strings yield one-character strings; scalars raise `TypeError`. -/
def pyIterElems (v : Value) : Exc (List Value) :=
  match v with
  | .vlist xs => .ok xs.toList
  | .vdict es => .ok (es.keys.map Value.vstr)
  | .vstr s => .ok (s.data.map (fun c => Value.vstr (String.mk [c])))
  | _ => .error (.typeError "object is not iterable")

/-! ## The Type Normalizer: `jsonify` (source lines 292 to 315)

ASCII models of the string predicates the source uses. -/

/-- ASCII case folding of one character, modelling `str.lower` on the ASCII
strings the handler works with. -/
def pyLowerChar (c : Char) : Char :=
  if 'A' ≤ c ∧ c ≤ 'Z' then Char.ofNat (c.toNat + 32) else c

/-- ASCII model of Python `str.lower()`. -/
def pyLower (s : String) : String := String.mk (s.data.map pyLowerChar)

/-- ASCII model of Python `str.isnumeric()`: non-empty and all decimal
digits.  (Python's predicate also accepts further Unicode numerics; the
handler's inputs are ASCII.) -/
def pyIsNumeric (s : String) : Bool := !s.data.isEmpty && s.data.all Char.isDigit

/-- Python `int(s)` on a string of decimal digits. -/
def digitsVal (s : String) : Int :=
  (s.data.foldl (fun a c => a * 10 + (c.toNat - 48)) 0 : Nat)

/-! The value-level semantics of `jsonify` (source lines 292 to 315): dicts
and lists recurse (the source updates them in place and returns the same
object; the in-place aspect is modelled separately by `jsonifyH` below),
strings equal to true or false after lowering become booleans, numeric
strings become integers, other strings are returned unchanged, and any
other input falls off the end of the function body, which in Python returns
`None`. -/
mutual
def jsonify : Value → Value
  | .vdict es => .vdict (jsonifyD es)
  | .vlist xs => .vlist (jsonifyL xs)
  | .vstr s =>
      if pyLower s = "true" then .vbool true
      else if pyLower s = "false" then .vbool false
      else if pyIsNumeric s then .vint (digitsVal s)
      else .vstr s
  | _ => .vnone
def jsonifyL : VList → VList
  | .nil => .nil
  | .cons v tl => .cons (jsonify v) (jsonifyL tl)
def jsonifyD : VDict → VDict
  | .nil => .nil
  | .cons k v tl => .cons k (jsonify v) (jsonifyD tl)
end

/-- Does the scalar string convert to a boolean or an integer under
`jsonify`?  Trees with no such string are exactly those on which a second
`jsonify` pass changes nothing. -/
def convStr (s : String) : Bool :=
  pyLower s = "true" || pyLower s = "false" || pyIsNumeric s

/-! No string scalar anywhere in the tree converts to a boolean or an
integer. -/
mutual
def noConvString : Value → Bool
  | .vdict es => noConvStringD es
  | .vlist xs => noConvStringL xs
  | .vstr s => !convStr s
  | _ => true
def noConvStringL : VList → Bool
  | .nil => true
  | .cons v tl => noConvString v && noConvStringL tl
def noConvStringD : VDict → Bool
  | .nil => true
  | .cons _ v tl => noConvString v && noConvStringD tl
end

/-- Normalization of one scalar, written after the amended wording of the
Type Normalizer contract: strings equal to true or false case-insensitively
become booleans, all-digit strings become integers, other strings are kept,
and every non-string scalar is replaced by `None`. -/
def normScalarSpec (v : Value) : Value :=
  match v with
  | .vstr s =>
      if pyLower s = "true" then .vbool true
      else if pyLower s = "false" then .vbool false
      else if pyIsNumeric s then .vint (digitsVal s)
      else .vstr s
  | .vdict es => .vdict es
  | .vlist xs => .vlist xs
  | _ => .vnone

/-! The amended Type Normalizer contract as a tree map: walk the tree
preserving mapping keys and sequence order and apply `normScalarSpec` to
every scalar leaf.  `jsonify` is proved to coincide with this map. -/
mutual
def jsonifySpec : Value → Value
  | .vdict es => .vdict (jsonifySpecD es)
  | .vlist xs => .vlist (jsonifySpecL xs)
  | v => normScalarSpec v
def jsonifySpecL : VList → VList
  | .nil => .nil
  | .cons v tl => .cons (jsonifySpec v) (jsonifySpecL tl)
def jsonifySpecD : VDict → VDict
  | .nil => .nil
  | .cons k v tl => .cons k (jsonifySpec v) (jsonifySpecD tl)
end

/-! ## Object-identity model of `jsonify` (source lines 292 to 315)

The source mutates its argument: `obj[k] = jsonify(v)` rewrites the dict's
slots in place and `return obj` hands back the same object, and likewise
for lists.  To express that, values live on a heap of numbered nodes; dict
and list nodes hold references.  `jsonifyH` follows the source: for a dict
or list node it rewrites the node's slots with the results of the recursive
calls and returns the same reference; for a converted string or for any
non-dict, non-list, non-string node (where the Python function falls off
its end and returns `None`) it returns a reference to a fresh node, leaving
the argument node untouched; for an unconverted string it returns the
argument reference.  The fuel argument only bounds recursion depth; any
fuel at least the tree height gives the Python behaviour (the orchestrator
payload is guaranteed acyclic). -/

inductive HNode where
  | hdict : List (String × Nat) → HNode
  | hlist : List Nat → HNode
  | hstr : String → HNode
  | hbool : Bool → HNode
  | hint : Int → HNode
  | hnone : HNode
  deriving DecidableEq, Repr

/-- A heap: node contents indexed by reference. -/
abbrev Heap := List HNode

/-- Allocate a fresh node, returning the new heap and its reference. -/
def allocH (h : Heap) (n : HNode) : Heap × Nat := (h ++ [n], h.length)

/-- The in-place `jsonify` of the source, on the heap model.  Returns the
updated heap and the reference of the result.  Dict and list nodes are
mutated and their own reference is returned; converted scalars are fresh
nodes. -/
def jsonifyH : Nat → Heap → Nat → Heap × Nat
  | 0, h, r => (h, r)
  | fuel+1, h, r =>
    match h.get? r with
    | some (.hdict entries) =>
        let res := entries.foldl (fun (acc : Heap × List (String × Nat)) kv =>
          let step := jsonifyH fuel acc.1 kv.2
          (step.1, acc.2 ++ [(kv.1, step.2)])) (h, [])
        (res.1.set r (.hdict res.2), r)
    | some (.hlist refs) =>
        let res := refs.foldl (fun (acc : Heap × List Nat) vr =>
          let step := jsonifyH fuel acc.1 vr
          (step.1, acc.2 ++ [step.2])) (h, [])
        (res.1.set r (.hlist res.2), r)
    | some (.hstr s) =>
        if pyLower s = "true" then allocH h (.hbool true)
        else if pyLower s = "false" then allocH h (.hbool false)
        else if pyIsNumeric s then allocH h (.hint (digitsVal s))
        else (h, r)
    | some _ => allocH h .hnone
    | none => (h, r)

/-! ## The schema document and the Structure Converter

`convert_structure` (source lines 332 to 382) drives conversion off
`ApiStructure.json`, a JSON document mapping each field name to an object
with members `Required` (a boolean), `Type` (a string tag) and, for the
object kinds, `ObjectFields` (a nested document of the same shape).  The
document itself is not part of the repository snapshot, so its parsed form
is the abstract type below, supplied through the environment; the
converter's code is embedded from the source. -/

mutual
inductive SchemaField where
  | mk : Bool → String → SchemaDict → SchemaField
  deriving DecidableEq, Repr
inductive SchemaDict where
  | nil : SchemaDict
  | cons : String → SchemaField → SchemaDict → SchemaDict
  deriving DecidableEq, Repr
end

/-- The `Required` member of a schema entry. -/
def SchemaField.required : SchemaField → Bool
  | .mk r _ _ => r

/-- The `Type` member of a schema entry. -/
def SchemaField.ftype : SchemaField → String
  | .mk _ t _ => t

/-- The `ObjectFields` member of a schema entry. -/
def SchemaField.objectFields : SchemaField → SchemaDict
  | .mk _ _ o => o

/-- Field names of a schema document, in declaration order. -/
def SchemaDict.names : SchemaDict → List String
  | .nil => []
  | .cons n _ tl => n :: SchemaDict.names tl

/-- First schema entry with the given name. -/
def lookupS : SchemaDict → String → Option SchemaField
  | .nil, _ => none
  | .cons n f tl, n' => if n = n' then some f else lookupS tl n'

/-- The `generate_random_string` of the source (lines 392 to 393): its
body evaluates `str(datetime.datetime.now())`, but the `datetime` module
is never imported anywhere in the file, so executing the call raises
`NameError`. -/
def generate_random_string : Exc Value :=
  .error (.nameError "name datetime is not defined")

/-- The `generate_defaults` of the source (lines 385 to 389): a `Random`
field calls `generate_random_string`, whose body raises `NameError` (see
there); for every other type the function body ends without returning,
which in Python yields `None`. -/
def generate_defaults (f : SchemaField) : Exc Value :=
  if f.ftype = "Random" then generate_random_string else .ok .vnone

/-- The `convert_structure` of the source (lines 332 to 382), embedded
literally.  The function is declared with the single parameter
`properties`, which the loop variable of
`for name, properties in api_structure.items()` immediately shadows; the
loop body then reads the free name `provided_structure` (lines 339, 355
and 356), which is defined nowhere in the module.  Consequently the first
loop iteration raises `NameError: name provided_structure is not defined`
for every nonempty schema document, while an empty document makes the loop
body never run and the empty structure is returned.  The rest of the loop
body — the truthiness gate at line 345, the `Type` dispatch with its
Quantity and Items wrapping, the recursion into `ObjectFields` (whose
self-calls at lines 360 and 369 pass two arguments to this one-parameter
function and would therefore raise `TypeError`), and the
`generate_defaults` fallback for required-but-missing fields — is
unreachable.  The first parameter of the embedding stands for the parsed
`ApiStructure.json` document the source reads at line 333 (the file is
absent from the repository snapshot). -/
def convert_structure (api : SchemaDict) (_properties : Value) : Exc VDict :=
  match api with
  | .nil => .ok .nil
  | .cons _ _ _ => .error (.nameError "name provided_structure is not defined")

/-- The `preprocess_structure` of the source (lines 317 to 329): read
`properties["DistributionConfig"]` (a missing key or a non-dict value
raises, outside the local try), then inside a try that swallows only
`KeyError`, copy the legacy `IPV6Enabled` flag to `IsIPV6Enabled` and store
the config back.  The source mutates the config dict in place; since the
stored-back object is that same config, the value-level result below is
identical. -/
def preprocess_structure (properties : Value) : Exc Value := do
  let config ← pyGetItem properties "DistributionConfig"
  match config with
  | .vdict es =>
      match lookupD es "IPV6Enabled" with
      | some v =>
          pySetItem properties "DistributionConfig" (.vdict (setD es "IsIPV6Enabled" v))
      | none => .ok properties
  | .vstr _ => .error (.typeError "string indices must be integers")
  | .vlist _ => .error (.typeError "list indices must be integers or slices, not str")
  | _ => .error (.typeError "object is not subscriptable")

/-! ## Effects, environment and the handler (source lines 33 to 121)

The handler's externally visible actions are recorded in order in an effect
trace.  Constructors exist for the create and delete RPCs and the
scheduler calls (`put_targets`, `put_rule`) even though, in the source as
written, the code paths that would perform them always raise first: the
conversion call at line 53 raises `NameError` reading the undefined
`provided_structure` before any lifecycle dispatch, and behind it the
handler's four-positional-argument calls to the three-parameter
`_update_distribution` and `_delete_distribution`, and
`_create_distribution`'s polling-rule call with its undefined
`physical_resource_id`, would raise in turn.  Their absence from every
reachable trace is then expressible. -/

/-- A completion signal sent to the orchestrator: the success signal of
`respond` (physical resource id, data payload, NoEcho) or the failure
signal of `respond_error` (physical resource id, reason). -/
inductive Signal where
  | success : Value → Value → Bool → Signal
  | failed : Value → String → Signal
  deriving DecidableEq, Repr

/-- One externally visible action of the handler. -/
inductive Eff where
  | createDistributionWithTags : Value → Eff
  | deleteDistribution : Value → Value → Eff
  | putTargets : Value → Value → Eff
  | putRule : Value → Eff
  | signal : Signal → Eff
  deriving DecidableEq, Repr

/-- Is the effect a completion signal? -/
def Eff.isSignal : Eff → Bool
  | .signal _ => true
  | _ => false

/-- The stateful computation of one handler invocation: threads the effect
trace and either returns a value or raises a Python exception, keeping the
effects performed up to the raise. -/
def M (α : Type) : Type := List Eff → Exc α × List Eff

/-- Return without effects. -/
def pureM {α : Type} (a : α) : M α := fun s => (.ok a, s)

/-- Sequence two computations; a raise short-circuits but keeps the trace. -/
def bindM {α β : Type} (m : M α) (f : α → M β) : M β := fun s =>
  match m s with
  | (.ok a, s') => f a s'
  | (.error e, s') => (.error e, s')

instance : Monad M where
  pure := pureM
  bind := bindM

/-- Evaluate a pure Python expression inside the handler: no effects. -/
def liftE {α : Type} (e : Exc α) : M α := fun s => (e, s)

/-- Record one externally visible action. -/
def emit (e : Eff) : M Unit := fun s => (.ok (), s ++ [e])

/-- Raise a Python exception. -/
def throwM {α : Type} (e : PyErr) : M α := fun s => (.error e, s)

/-- A provider or scheduler RPC: the call itself is externally visible (it
is recorded before the outcome is known), and the environment decides
whether it returns a value or raises. -/
def rpcCall (eff : Eff) (outcome : Except String Value) : M Value := do
  emit eff
  match outcome with
  | .ok v => pureM v
  | .error m => throwM (.rpcError m)

/-- The invocation environment: the uuid the handler mints for a missing
`PhysicalResourceId` (line 39), the parsed `ApiStructure.json`, and the
outcome of the create RPC as a function of its request.  The RPC outcome
keeps the create call in `_create_distribution` fully modelled; in the
source as written no invocation reaches it (conversion raises first, and
even an empty schema document leaves the converted properties without the
`DistributionConfig` entry that `_create_distribution` reads before the
call). -/
structure Env where
  freshUuid : String
  apiStructure : SchemaDict
  createDistributionWithTags : Value → Except String Value

/-- Modelled from the spec: the completion-signal emitter of the external
`cr_response` module (not part of the repository snapshot).  Spec section
4.5: a signal carries the physical resource id, a data payload, a no-echo
flag and, on failure, a reason; `respond` and `respond_error` each send
exactly one signal.  The handler stores the response object and overwrites
its `PhysicalResourceId` payload entry on Create (line 57). -/
structure CustomResourceResponse where
  physId : Value
  deriving DecidableEq, Repr

/-- Emission of the success signal by `lambda_response.respond`. -/
def respond (cr : CustomResourceResponse) (data : Value) (noEcho : Bool) : M Unit :=
  emit (.signal (.success cr.physId data noEcho))

/-- Emission of the failure signal by `lambda_response.respond_error`. -/
def respond_error (cr : CustomResourceResponse) (message : String) : M Unit :=
  emit (.signal (.failed cr.physId message))

/-- The `_create_distribution` of the source (lines 74 to 121).  Builds the
fixed tag pair Status=Created and StackARN, appends user tags when
`properties` has a `Tags` entry (Python `+=`, which extends by any
iterable), wraps the converted `DistributionConfig` with the tags, performs
the create RPC, extracts Id, ARN and DomainName, and reads the wait flag
`properties["UpdateConfig"].get("WaitForCreation", True)`.  When the flag
is truthy the source calls `update_polling_rule`; evaluating that call's
arguments reads `properties["DistributionHelpers"]` twice and then the
undefined name `physical_resource_id`, so the call raises `NameError` at
that point and neither the scheduler calls nor the following `exit(0)` are
reached.  When the flag is falsy the outputs are returned. -/
def _create_distribution (env : Env) (event properties stack_arn : Value) : M Value :=
  let _ := event
  do
  let baseTags : List Value :=
    [mkDict [("Key", .vstr "Status"), ("Value", .vstr "Created")],
     mkDict [("Key", .vstr "StackARN"), ("Value", stack_arn)]]
  let hasTags ← liftE (pyContains properties "Tags")
  let tagItems ←
    if hasTags then do
      let t ← liftE (pyGetItem properties "Tags")
      let ext ← liftE (pyIterElems t)
      pureM (baseTags ++ ext)
    else
      pureM baseTags
  let dconf ← liftE (pyGetItem properties "DistributionConfig")
  let distribution_config :=
    mkDict [("DistributionConfig", dconf),
            ("Tags", mkDict [("Items", mkList tagItems)])]
  let response ← rpcCall (.createDistributionWithTags distribution_config)
    (env.createDistributionWithTags distribution_config)
  let distribution ← liftE (pyGetItem response "Distribution")
  let vid ← liftE (pyGetItem distribution "Id")
  let varn ← liftE (pyGetItem distribution "ARN")
  let vdom ← liftE (pyGetItem distribution "DomainName")
  let outputs := mkDict [("Id", vid), ("ARN", varn), ("DomainName", vdom)]
  let uc ← liftE (pyGetItem properties "UpdateConfig")
  let wait_for_status ← liftE (pyGetDefault uc "WaitForCreation" (.vbool true))
  if pyTruthy wait_for_status then do
    let dh ← liftE (pyGetItem properties "DistributionHelpers")
    let _rule ← liftE (pyGetItem dh "PollDistributionsRule")
    let _fn ← liftE (pyGetItem dh "PollDistributionsFunctionArn")
    throwM (.nameError "name physical_resource_id is not defined")
  else
    pureM outputs

/-- The statements of the handler before the try block (lines 33 to 39):
normalize the event with `jsonify` and, when the normalized event has no
`PhysicalResourceId`, install a fresh uuid under that key.  Exceptions
raised here escape the handler (they are outside the try). -/
def handlerPre (env : Env) (eventRaw : Value) : Exc Value := do
  let ev := jsonify eventRaw
  let hasP ← pyContains ev "PhysicalResourceId"
  if hasP then .ok ev else pySetItem ev "PhysicalResourceId" (.vstr env.freshUuid)

/-- The statements of the try block before `lambda_response` is assigned
(lines 42 to 43): read `event["ResourceProperties"]` and default its
`UpdateConfig` member to an empty dict.  If these raise, the except clause
then reads the still-unassigned local `lambda_response`, raising
`UnboundLocalError` out of the handler.  Returns the updated event and its
`ResourceProperties`. -/
def handlerPhase1 (event : Value) : Exc (Value × Value) := do
  let rp ← pyGetItem event "ResourceProperties"
  let hasUC ← pyContains rp "UpdateConfig"
  if hasUC then
    .ok (event, rp)
  else do
    let rp' ← pySetItem rp "UpdateConfig" (mkDict [])
    let event' ← pySetItem event "ResourceProperties" rp'
    .ok (event', rp')

/-- The physical resource id the response object carries: the event's
`PhysicalResourceId` (always present after `handlerPre` on a dict event). -/
def physIdOf (event : Value) : Value :=
  match event with
  | .vdict es => (lookupD es "PhysicalResourceId").getD .vnone
  | _ => .vnone

/-- The rest of the try block (lines 45 to 66): read `StackId`, preprocess
the properties, convert them (the line 53 call, which for any nonempty
schema document raises the undefined-name `NameError` inside
`convert_structure`), and dispatch on `RequestType`.  The Create branch
calls `_create_distribution`, copies the returned Id into the response
payload and emits the success signal.  The Update and Delete branches call
`_update_distribution(client, event, properties, physical_resource_id)`
and `_delete_distribution(client, event, properties,
physical_resource_id)`: both callees take three parameters, so each call
raises `TypeError` before the callee's body runs.  An unknown
`RequestType` matches no branch and nothing happens. -/
def handlerPhase2 (env : Env) (event rp : Value) (cr : CustomResourceResponse) : M Unit := do
  let stack_arn ← liftE (pyGetItem event "StackId")
  let props1 ← liftE (preprocess_structure rp)
  let props2 ← liftE (convert_structure env.apiStructure props1)
  let properties := Value.vdict props2
  let rt ← liftE (pyGetItem event "RequestType")
  if rt = .vstr "Create" then do
    let outputs ← _create_distribution env event properties stack_arn
    let idv ← liftE (pyGetItem outputs "Id")
    respond { cr with physId := idv } outputs false
  else if rt = .vstr "Update" then
    throwM (.typeError "_update_distribution takes 3 positional arguments but 4 were given")
  else if rt = .vstr "Delete" then
    throwM (.typeError "_delete_distribution takes 3 positional arguments but 4 were given")
  else
    pureM ()

/-- The `handler` of the source (lines 33 to 71).  Pre-try statements run
first and their exceptions escape.  Inside the try, if the statements
before `lambda_response = ...` raise, the except clause itself raises
`UnboundLocalError` reading `lambda_response`, which escapes the handler.
Once the response object exists, any `Exception` from the rest of the try
is caught and answered with exactly one `respond_error` carrying `str(e)`,
and the handler returns the sentinel string OK. -/
def handler (env : Env) (eventRaw : Value) : M String := fun s =>
  match handlerPre env eventRaw with
  | .error e => (.error e, s)
  | .ok event =>
    match handlerPhase1 event with
    | .error _ =>
        (.error (.nameError "local variable lambda_response referenced before assignment"), s)
    | .ok (event', rp) =>
      let cr : CustomResourceResponse := { physId := physIdOf event' }
      match handlerPhase2 env event' rp cr s with
      | (.ok _, s') => (.ok "OK", s')
      | (.error e, s') => (.ok "OK", s' ++ [.signal (.failed cr.physId (strE e))])

/-- Run one invocation from an empty trace: the handler's result (the
sentinel string, or the exception that escaped) and the effect trace. -/
def runHandler (env : Env) (eventRaw : Value) : Exc String × List Eff :=
  handler env eventRaw []

/-- The outcome of the conversion-and-lifecycle part of the invocation (the
body of the try block once the response object exists), for stating the
error-handling claim: `none` when control never reaches that part (a
pre-try or pre-assignment exception escaped), otherwise the result of
`handlerPhase2`. -/
def phase2Outcome (env : Env) (eventRaw : Value) : Option (Exc Unit) :=
  match handlerPre env eventRaw with
  | .error _ => none
  | .ok event =>
    match handlerPhase1 event with
    | .error _ => none
    | .ok (event', rp) =>
      some (handlerPhase2 env event' rp { physId := physIdOf event' } []).1

/-- The computation never adds a completion-signal effect to the trace
(its other effects may grow the trace). -/
def addsNoSignals {α : Type} (m : M α) : Prop :=
  ∀ s, ((m s).2).filter Eff.isSignal = s.filter Eff.isSignal

/-- If the computation raises, it has added no completion-signal effect to
the trace (it may emit signals only on success paths). -/
def errAddsNoSignals {α : Type} (m : M α) : Prop :=
  ∀ s e s', m s = (.error e, s') → s'.filter Eff.isSignal = s.filter Eff.isSignal

/-! ## Concrete invocation instances

A small but complete environment used by the closed evaluation theorems:
a nonempty schema document (so the converter exhibits its undefined-name
failure exactly as on the real `ApiStructure.json`), and a create RPC that
returns a well-formed distribution record.  The events exercise the three
lifecycle request types. -/

def apiX : SchemaDict :=
  .cons "DistributionConfig" (.mk true "Object"
      (.cons "Comment" (.mk false "String" .nil)
      (.cons "Enabled" (.mk false "Boolean" .nil) .nil)))
  (.cons "UpdateConfig" (.mk false "Object"
      (.cons "WaitForCreation" (.mk false "Boolean" .nil)
      (.cons "WaitForDeletion" (.mk false "Boolean" .nil) .nil)))
  (.cons "DistributionHelpers" (.mk false "Object"
      (.cons "PollDistributionsRule" (.mk false "String" .nil)
      (.cons "PollDistributionsFunctionArn" (.mk false "String" .nil) .nil)))
  .nil))

def envX : Env :=
  { freshUuid := "uuid-1"
    apiStructure := apiX
    createDistributionWithTags := fun _ =>
      .ok (mkDict [("Distribution",
        mkDict [("Id", .vstr "D123"), ("ARN", .vstr "arn-d123"),
                ("DomainName", .vstr "d123.example.net")])]) }

/-- A Create request whose wait preference is true (`WaitForCreation`
provided as the templated string true, normalized to the boolean), with
the helper-function references the polling-rule registration would need. -/
def ev2 : Value := mkDict
  [("RequestType", .vstr "Create"),
   ("StackId", .vstr "stack-1"),
   ("RequestId", .vstr "req-1"),
   ("LogicalResourceId", .vstr "Dist"),
   ("ResourceProperties", mkDict
     [("DistributionConfig", mkDict [("Comment", .vstr "hello"), ("Enabled", .vstr "true")]),
      ("UpdateConfig", mkDict [("WaitForCreation", .vstr "true")]),
      ("DistributionHelpers", mkDict
        [("PollDistributionsRule", .vstr "poll-rule"),
         ("PollDistributionsFunctionArn", .vstr "poll-arn")])])]

/-- A Delete request for a distribution that is (on the provider side)
deployed and already disabled; the handler never gets far enough to
observe that state. -/
def ev7 : Value := mkDict
  [("RequestType", .vstr "Delete"),
   ("StackId", .vstr "stack-1"),
   ("RequestId", .vstr "req-7"),
   ("LogicalResourceId", .vstr "Dist"),
   ("PhysicalResourceId", .vstr "D123"),
   ("ResourceProperties", mkDict
     [("DistributionConfig", mkDict [("Comment", .vstr "hello"), ("Enabled", .vstr "false")]),
      ("UpdateConfig", mkDict [])])]

/-- A Delete request with the wait preference explicitly false
(`WaitForDeletion` provided as the templated string false). -/
def ev8 : Value := mkDict
  [("RequestType", .vstr "Delete"),
   ("StackId", .vstr "stack-1"),
   ("RequestId", .vstr "req-8"),
   ("LogicalResourceId", .vstr "Dist"),
   ("PhysicalResourceId", .vstr "D456"),
   ("ResourceProperties", mkDict
     [("DistributionConfig", mkDict [("Comment", .vstr "hello"), ("Enabled", .vstr "true")]),
      ("UpdateConfig", mkDict [("WaitForDeletion", .vstr "false")])])]

/-! ## Lemmas about the Type Normalizer -/

mutual
theorem jsonify_eq_spec : ∀ v : Value, jsonify v = jsonifySpec v
  | .vdict es => congrArg Value.vdict (jsonify_eq_specD es)
  | .vlist xs => congrArg Value.vlist (jsonify_eq_specL xs)
  | .vstr _ => rfl
  | .vnone => rfl
  | .vbool _ => rfl
  | .vint _ => rfl
theorem jsonify_eq_specL : ∀ xs : VList, jsonifyL xs = jsonifySpecL xs
  | .nil => rfl
  | .cons v tl => by rw [jsonifyL, jsonifySpecL, jsonify_eq_spec v, jsonify_eq_specL tl]
theorem jsonify_eq_specD : ∀ es : VDict, jsonifyD es = jsonifySpecD es
  | .nil => rfl
  | .cons k v tl => by rw [jsonifyD, jsonifySpecD, jsonify_eq_spec v, jsonify_eq_specD tl]
end

theorem jsonify_str_of_noConv (s : String) (h : convStr s = false) :
    jsonify (.vstr s) = .vstr s := by
  simp only [convStr, Bool.or_eq_false_iff, decide_eq_false_iff_not] at h
  obtain ⟨⟨h1, h2⟩, h3⟩ := h
  simp only [jsonify, if_neg h1, if_neg h2, h3, Bool.false_eq_true, if_false]

mutual
theorem jsonify_idem : ∀ v : Value, noConvString v = true → jsonify (jsonify v) = jsonify v
  | .vdict es, h => by
      have h' : noConvStringD es = true := h
      rw [jsonify, jsonify, jsonify_idemD es h']
  | .vlist xs, h => by
      have h' : noConvStringL xs = true := h
      rw [jsonify, jsonify, jsonify_idemL xs h']
  | .vstr s, h => by
      have h' : convStr s = false := by
        have : (!convStr s) = true := h
        simpa using this
      rw [jsonify_str_of_noConv s h', jsonify_str_of_noConv s h']
  | .vnone, _ => rfl
  | .vbool _, _ => rfl
  | .vint _, _ => rfl
theorem jsonify_idemL : ∀ xs : VList, noConvStringL xs = true → jsonifyL (jsonifyL xs) = jsonifyL xs
  | .nil, _ => rfl
  | .cons v tl, h => by
      have hv : noConvString v = true ∧ noConvStringL tl = true := by
        have : (noConvString v && noConvStringL tl) = true := h
        simpa using this
      rw [jsonifyL, jsonifyL, jsonify_idem v hv.1, jsonify_idemL tl hv.2]
theorem jsonify_idemD : ∀ es : VDict, noConvStringD es = true → jsonifyD (jsonifyD es) = jsonifyD es
  | .nil, _ => rfl
  | .cons k v tl, h => by
      have hv : noConvString v = true ∧ noConvStringD tl = true := by
        have : (noConvString v && noConvStringD tl) = true := h
        simpa using this
      rw [jsonifyD, jsonifyD, jsonify_idem v hv.1, jsonify_idemD tl hv.2]
end

mutual
theorem jsonify_not_idem : ∀ v : Value, noConvString v = false → jsonify (jsonify v) ≠ jsonify v
  | .vdict es, h => by
      have ih := jsonify_not_idemD es h
      simp only [jsonify]
      intro hc
      exact ih (Value.vdict.inj hc)
  | .vlist xs, h => by
      have ih := jsonify_not_idemL xs h
      simp only [jsonify]
      intro hc
      exact ih (Value.vlist.inj hc)
  | .vstr s, h => by
      have hcs : convStr s = true := by
        have hb : (!convStr s) = false := h
        simpa using hb
      by_cases h1 : pyLower s = "true"
      · simp [jsonify, h1]
      · by_cases h2 : pyLower s = "false"
        · simp [jsonify, h1, h2]
        · have h3 : pyIsNumeric s = true := by
            simp only [convStr, Bool.or_eq_true, decide_eq_true_eq] at hcs
            rcases hcs with (hc | hc) | hc
            · exact absurd hc h1
            · exact absurd hc h2
            · exact hc
          simp [jsonify, h1, h2, h3]
  | .vnone, h => by simp [noConvString] at h
  | .vbool b, h => by simp [noConvString] at h
  | .vint n, h => by simp [noConvString] at h
theorem jsonify_not_idemL :
    ∀ xs : VList, noConvStringL xs = false → jsonifyL (jsonifyL xs) ≠ jsonifyL xs
  | .nil, h => by simp [noConvStringL] at h
  | .cons v tl, h => by
      simp only [jsonifyL]
      intro hc
      cases hv : noConvString v with
      | false => exact jsonify_not_idem v hv (VList.cons.inj hc).1
      | true =>
          have htl : noConvStringL tl = false := by
            have hb : (noConvString v && noConvStringL tl) = false := h
            simpa [hv] using hb
          exact jsonify_not_idemL tl htl (VList.cons.inj hc).2
theorem jsonify_not_idemD :
    ∀ es : VDict, noConvStringD es = false → jsonifyD (jsonifyD es) ≠ jsonifyD es
  | .nil, h => by simp [noConvStringD] at h
  | .cons k v tl, h => by
      simp only [jsonifyD]
      intro hc
      cases hv : noConvString v with
      | false => exact jsonify_not_idem v hv (VDict.cons.inj hc).2.1
      | true =>
          have htl : noConvStringD tl = false := by
            have hb : (noConvString v && noConvStringD tl) = false := h
            simpa [hv] using hb
          exact jsonify_not_idemD tl htl (VDict.cons.inj hc).2.2
end

/-! ## Claim C5: behaviour of the Type Normalizer on scalars -/

/-- Claim C5, counterexample.  The claim states that every non-string
scalar passes through `jsonify` unchanged.  In the source, an input that is
not a dict, a list or a string matches no branch and the function body
falls off its end, returning `None`: the integer value 5 under key a is
rewritten to `None`, not passed through. -/
theorem claim5_counterexample :
    jsonify (mkDict [("a", Value.vint 5)]) = mkDict [("a", Value.vnone)] ∧
    jsonify (mkDict [("a", Value.vint 5)]) ≠ mkDict [("a", Value.vint 5)] := by
  constructor
  · rfl
  · decide

/-- Claim C5, amended.  `jsonify` is total and coincides with the tree map
`jsonifySpec`: mappings and sequences are traversed with keys and order
preserved, a string equal case-insensitively to true or false becomes the
corresponding boolean, a string of digits becomes an integer, every other
string passes through unchanged, and every non-string scalar (boolean,
integer, null) is replaced by `None` rather than passing through. -/
theorem claim5_amended_holds (v : Value) : jsonify v = jsonifySpec v :=
  jsonify_eq_spec v

/-! ## Claim C6: idempotence of the Type Normalizer -/

/-- Claim C6, counterexample.  The claim states
`jsonify (jsonify t) = jsonify t` for every tree.  The string 5 normalizes
to the integer 5, and a second application sends that integer to `None`
(the fall-through branch), so double application differs from single
application. -/
theorem claim6_counterexample :
    jsonify (Value.vstr "5") = Value.vint 5 ∧
    jsonify (jsonify (Value.vstr "5")) = Value.vnone ∧
    jsonify (jsonify (Value.vstr "5")) ≠ jsonify (Value.vstr "5") := by
  refine ⟨rfl, rfl, ?_⟩
  decide

/-- Claim C6, amended.  `jsonify` is idempotent on exactly the trees whose
string scalars all stay strings: a second application changes nothing if
and only if no string in the tree lowers to true or false and none is
numeric.  (On any other tree the first pass manufactures a boolean or an
integer, which the second pass sends to `None`, as the counterexample
shows.) -/
theorem claim6_amended_holds (v : Value) :
    jsonify (jsonify v) = jsonify v ↔ noConvString v = true := by
  constructor
  · intro h
    by_contra hn
    exact jsonify_not_idem v (by simpa using hn) h
  · exact jsonify_idem v

/-! ## Claim C9: the Type Normalizer is not a pure transform -/

/-- Claim C9, counterexample.  The claim states that `jsonify` leaves its
argument unmodified.  On the heap model of the source (which assigns
`obj[k] = jsonify(v)` into its argument and returns `obj`), normalizing the
mapping at reference 0 (contents a maps-to reference 1, where reference 1
holds the string 5) rewrites the slot of a in place to point at the fresh
integer node: the argument mapping observed after the call differs from
before, and the function returns the argument itself. -/
theorem claim9_counterexample :
    (jsonifyH 2 [.hdict [("a", 1)], .hstr "5"] 0).1.get? 0 = some (.hdict [("a", 2)]) ∧
    ([HNode.hdict [("a", 1)], HNode.hstr "5"] : Heap).get? 0 = some (.hdict [("a", 1)]) ∧
    (jsonifyH 2 [.hdict [("a", 1)], .hstr "5"] 0).1.get? 0 ≠
      ([HNode.hdict [("a", 1)], HNode.hstr "5"] : Heap).get? 0 ∧
    (jsonifyH 2 [.hdict [("a", 1)], .hstr "5"] 0).2 = 0 := by
  refine ⟨rfl, rfl, ?_, rfl⟩
  decide

/-- Claim C9, amended.  `jsonify` is not a pure, non-mutating transform:
for every mapping or sequence argument it returns the argument object
itself, after rewriting the argument's slots in place with the normalized
children (so the input tree observed after the call in general differs
from the input tree before the call, as the counterexample shows). -/
theorem claim9_amended_holds (fuel : Nat) (hp : Heap) (r : Nat) (hfuel : fuel ≠ 0) :
    (∀ entries, hp.get? r = some (.hdict entries) → (jsonifyH fuel hp r).2 = r) ∧
    (∀ refs, hp.get? r = some (.hlist refs) → (jsonifyH fuel hp r).2 = r) := by
  cases fuel with
  | zero => exact absurd rfl hfuel
  | succ n =>
      constructor
      · intro entries hx
        rw [List.get?_eq_getElem?] at hx
        simp [jsonifyH, hx]
      · intro refs hx
        rw [List.get?_eq_getElem?] at hx
        simp [jsonifyH, hx]

/-- Claim C9, witness for the amended theorem at a concrete heap. -/
theorem claim9_witness :
    (2 : Nat) ≠ 0 ∧
    (([HNode.hdict [("a", 1)], HNode.hstr "5"] : Heap).get? 0 = some (.hdict [("a", 1)]) →
      (jsonifyH 2 [.hdict [("a", 1)], .hstr "5"] 0).2 = 0) :=
  ⟨by decide, (claim9_amended_holds 2 [.hdict [("a", 1)], .hstr "5"] 0 (by decide)).1 [("a", 1)]⟩

/-! ## Claims C3, C4, C10: what the Structure Converter actually does

The converter's body never reaches its per-field logic: reading the
undefined name `provided_structure` raises `NameError` on the first field
of every nonempty schema document (see `convert_structure`).  The theorems
below settle the three converter claims against that literal behaviour. -/

/-- Claim C3, evaluation at the failing input.  The claim states that a
required non-Generated field absent from the provided properties makes the
converter raise an explicit missing-required-field error before any
provider call.  The operation does fail before any provider call, but not
with a missing-required-field error: the converter raises the
undefined-name `NameError` for the schema with the single required String
field `Foo` against the empty property bag (first conjunct), and raises
the identical error when `Foo` IS provided (second conjunct) — the raise
has nothing to do with missing required fields.  Moreover the written
fallback for a required-but-missing field, `generate_defaults`, returns
`None` rather than raising (third conjunct), so no missing-required-field
error exists anywhere in the converter. -/
theorem claim3_failing_eval :
    convert_structure (.cons "Foo" (.mk true "String" .nil) .nil) (mkDict []) =
      .error (.nameError "name provided_structure is not defined") ∧
    convert_structure (.cons "Foo" (.mk true "String" .nil) .nil)
        (mkDict [("Foo", .vstr "x")]) =
      .error (.nameError "name provided_structure is not defined") ∧
    generate_defaults (.mk true "String" .nil) = .ok Value.vnone :=
  ⟨rfl, rfl, rfl⟩

/-- Claim C4, evaluation at the failing input.  The claim states that for
every schema and every property bag satisfying all required fields the
converter produces a tree whose shape matches the schema.  It produces no
tree at all for a nonempty schema: the undefined-name `NameError` is
raised on the first field, whatever the property bag (first conjunct,
universally quantified); the second conjunct evaluates the spec's worked
example, an ObjectList with two provided elements, which likewise
raises instead of producing a Quantity-and-Items tree. -/
theorem claim4_failing_eval :
    (∀ (n : String) (f : SchemaField) (rest : SchemaDict) (p : Value),
      convert_structure (.cons n f rest) p =
        .error (.nameError "name provided_structure is not defined")) ∧
    convert_structure
        (.cons "Origins" (.mk true "ObjectList" (.cons "Id" (.mk true "String" .nil) .nil))
          (.cons "Enabled" (.mk false "Boolean" .nil) .nil))
        (mkDict [("Origins", mkList [mkDict [("Id", .vstr "o1")], mkDict [("Id", .vstr "o2")]]),
                 ("Enabled", .vbool true)]) =
      .error (.nameError "name provided_structure is not defined") :=
  ⟨fun _ _ _ _ => rfl, rfl⟩

/-- Claim C10, counterexample.  The claim states that a required field
whose provided value is falsy (here `Enabled = False`) is routed to
default generation and the converter emits an output accordingly.  The
converter emits nothing: it raises the undefined-name `NameError` before
the truthiness test at line 345 can ever run. -/
theorem claim10_counterexample :
    convert_structure (.cons "Enabled" (.mk true "Boolean" .nil) .nil)
        (mkDict [("Enabled", .vbool false)]) =
      .error (.nameError "name provided_structure is not defined") := rfl

/-- Claim C10, amended.  The truthiness gate written in the converter's
loop body never executes: `convert_structure` raises
`NameError (name provided_structure is not defined)` on the first field of
every nonempty schema document, for every property bag — falsy values
included — and returns the empty structure for the empty document.  No
provided value is ever tested for truthiness, copied verbatim, omitted, or
routed to default generation. -/
theorem claim10_amended_holds :
    (∀ (n : String) (f : SchemaField) (rest : SchemaDict) (p : Value),
      convert_structure (.cons n f rest) p =
        .error (.nameError "name provided_structure is not defined")) ∧
    (∀ p : Value, convert_structure .nil p = .ok .nil) :=
  ⟨fun _ _ _ _ => rfl, fun _ => rfl⟩

/-! ## Claims C2, C7, C8: what an invocation of the handler actually does

These are closed evaluations of the full pipeline (normalizer,
preprocessing, converter, lifecycle dispatch) at the concrete invocations
above.  Every lifecycle operation dies during conversion: the handler's
line 53 call runs `convert_structure` into the undefined-name `NameError`
on the first schema field, the `except` clause catches it, and a FAILED
completion signal is the whole trace. -/

/-- Claim C2, evaluation at the failing input.  A Create invocation with
wait preference true never reaches `_create_distribution`: conversion at
line 53 raises `NameError (name provided_structure is not defined)`, the
handler catches it and emits a FAILED completion signal.  No create RPC is
performed, no deferred task targeting state Deployed is registered (no
scheduler effect occurs), and a completion signal IS emitted in the same
invocation — contrary to the claim.  (Were conversion repaired, the
polling-rule call itself would raise next: it reads the undefined names
`physical_resource_id` and `distribution_arn` at lines 111 and 112.) -/
theorem claim2_failing_eval :
    runHandler envX ev2 =
      (.ok "OK",
       [.signal (.failed (.vstr "uuid-1") "name provided_structure is not defined")]) ∧
    ((runHandler envX ev2).2.all (fun e =>
        match e with
        | .createDistributionWithTags _ => false
        | .putTargets _ _ => false
        | .putRule _ => false
        | _ => true) = true) :=
  ⟨rfl, rfl⟩

/-- Claim C7, evaluation at the failing input.  Every Delete invocation
dies during conversion at line 53 with the undefined-name `NameError`,
before the dispatch at line 65 (whose four-positional-argument call to the
three-parameter `_delete_distribution` would itself raise `TypeError`):
the distribution record is never read, the delete RPC is never invoked,
and the handler answers with a FAILED signal instead of SUCCESS. -/
theorem claim7_failing_eval :
    runHandler envX ev7 =
      (.ok "OK",
       [.signal (.failed (.vstr "D123") "name provided_structure is not defined")]) ∧
    ((runHandler envX ev7).2.all (fun e =>
        match e with
        | .deleteDistribution _ _ => false
        | _ => true) = true) :=
  ⟨rfl, rfl⟩

/-- Claim C8, evaluation at the failing input.  A Delete invocation with
`WaitForDeletion = false` fails like every Delete invocation: conversion
at line 53 raises the undefined-name `NameError` before the dispatch at
line 65 (itself an arity `TypeError` waiting to happen), so the
distribution is neither disabled nor tagged, no recurring cleanup trigger
is installed (no scheduler effect occurs), and the invocation ends in a
FAILED signal. -/
theorem claim8_failing_eval :
    runHandler envX ev8 =
      (.ok "OK",
       [.signal (.failed (.vstr "D456") "name provided_structure is not defined")]) ∧
    ((runHandler envX ev8).2.all (fun e =>
        match e with
        | .putTargets _ _ => false
        | .putRule _ => false
        | _ => true) = true) :=
  ⟨rfl, rfl⟩

/-! ## Signal-freedom lemmas for the error-handling claim (C1)

The handler's claim of exactly one failure signal per caught exception
rests on two facts: the lifecycle code emits no completion signal at all
(only the handler's own `respond` calls do), and the success-signal call is
the final statement of its branch, so an exception implies it never ran. -/

theorem bind_eq_bindM {α β : Type} (m : M α) (f : α → M β) :
    (m >>= f) = bindM m f := rfl

theorem ans_pure {α : Type} (a : α) : addsNoSignals (pureM a) := fun _ => rfl

theorem ans_lift {α : Type} (e : Exc α) : addsNoSignals (liftE e) := fun _ => rfl

theorem ans_throw {α : Type} (e : PyErr) : addsNoSignals (throwM e : M α) := fun _ => rfl

theorem ans_emit (e : Eff) (h : Eff.isSignal e = false) : addsNoSignals (emit e) := by
  intro s
  simp [emit, List.filter_append, h]

theorem ans_bind {α β : Type} {m : M α} {f : α → M β}
    (hm : addsNoSignals m) (hf : ∀ a, addsNoSignals (f a)) :
    addsNoSignals (bindM m f) := by
  intro s
  unfold bindM
  rcases hms : m s with ⟨r, s1⟩
  have h1 := hm s
  rw [hms] at h1
  cases r with
  | ok a =>
      have h2 := hf a s1
      simp only []
      rw [h2, h1]
  | error e =>
      simpa using h1

theorem ans_rpcCall (eff : Eff) (outcome : Except String Value)
    (h : Eff.isSignal eff = false) : addsNoSignals (rpcCall eff outcome) := by
  unfold rpcCall
  rw [bind_eq_bindM]
  apply ans_bind (ans_emit eff h)
  intro _
  cases outcome with
  | ok v => exact ans_pure v
  | error m => exact ans_throw _

theorem ans_create (env : Env) (event properties stack_arn : Value) :
    addsNoSignals (_create_distribution env event properties stack_arn) := by
  unfold _create_distribution
  simp only [bind_eq_bindM]
  repeat' first
    | (refine ans_bind (ans_lift _) (fun _ => ?_))
    | (refine ans_bind (ans_rpcCall _ _ rfl) (fun _ => ?_))
    | exact ans_pure _
    | exact ans_throw _
    | split

theorem eans_of_ans {α : Type} {m : M α} (h : addsNoSignals m) : errAddsNoSignals m := by
  intro s e s' hm
  have := h s
  rw [hm] at this
  exact this

theorem eans_bind {α β : Type} {m : M α} {f : α → M β}
    (hm : addsNoSignals m) (hf : ∀ a, errAddsNoSignals (f a)) :
    errAddsNoSignals (bindM m f) := by
  intro s e s' hbind
  unfold bindM at hbind
  rcases hms : m s with ⟨r, s1⟩
  rw [hms] at hbind
  have h1 := hm s
  rw [hms] at h1
  cases r with
  | ok a =>
      have h2 := hf a s1 e s' hbind
      rw [h2]
      exact h1
  | error e0 =>
      cases hbind
      exact h1

theorem eans_respond (cr : CustomResourceResponse) (data : Value) (b : Bool) :
    errAddsNoSignals (respond cr data b) := by
  intro s e s' h
  exact absurd h (by simp [respond, emit])

theorem eans_phase2 (env : Env) (event rp : Value) (cr : CustomResourceResponse) :
    errAddsNoSignals (handlerPhase2 env event rp cr) := by
  unfold handlerPhase2
  simp only [bind_eq_bindM]
  apply eans_bind (ans_lift _)
  intro stack_arn
  apply eans_bind (ans_lift _)
  intro props1
  apply eans_bind (ans_lift _)
  intro props2
  apply eans_bind (ans_lift _)
  intro rt
  split
  · apply eans_bind (ans_create env event _ stack_arn)
    intro outputs
    apply eans_bind (ans_lift _)
    intro idv
    exact eans_respond _ outputs false
  · split
    · exact eans_of_ans (ans_throw _)
    · split
      · exact eans_of_ans (ans_throw _)
      · exact eans_of_ans (ans_pure ())

theorem lookupD_setD_ne : ∀ (d : VDict) (k k' : String) (v : Value), k ≠ k' →
    lookupD (setD d k v) k' = lookupD d k'
  | .nil, k, k', v, h => by simp [setD, lookupD, h]
  | .cons k0 v0 tl, k, k', v, h => by
      by_cases hk : k0 = k
      · subst hk
        simp [setD, lookupD, h]
      · simp only [setD, if_neg hk, lookupD]
        by_cases hk' : k0 = k'
        · simp [hk']
        · simp [hk', lookupD_setD_ne tl k k' v h]

/-- Under the amended hypotheses the pre-try statements and the statements
before the response-object assignment all succeed. -/
theorem pre_phase1_ok (env : Env) (ev : Value) (ed rpd : VDict)
    (h1 : jsonify ev = .vdict ed)
    (h2 : lookupD ed "ResourceProperties" = some (.vdict rpd)) :
    ∃ event1 event2 rp, handlerPre env ev = .ok event1 ∧
      handlerPhase1 event1 = .ok (event2, rp) := by
  have hpre : handlerPre env ev =
      (if (VDict.keys ed).contains "PhysicalResourceId" then .ok (.vdict ed)
       else .ok (.vdict (setD ed "PhysicalResourceId" (.vstr env.freshUuid)))) := by
    unfold handlerPre
    rw [h1]
    rfl
  have hphase1 : ∀ ed' : VDict, lookupD ed' "ResourceProperties" = some (.vdict rpd) →
      ∃ event2 rp, handlerPhase1 (.vdict ed') = .ok (event2, rp) := by
    intro ed' hl
    unfold handlerPhase1
    simp only [pyGetItem, hl, Bind.bind, Except.bind]
    by_cases huc : (VDict.keys rpd).contains "UpdateConfig"
    · simp only [pyContains, huc]
      exact ⟨_, _, rfl⟩
    · simp only [pyContains, Bool.not_eq_true] at huc
      simp only [pyContains, huc]
      exact ⟨_, _, rfl⟩
  by_cases hc : (VDict.keys ed).contains "PhysicalResourceId"
  · rw [hc] at hpre
    obtain ⟨e2, rp, hp1⟩ := hphase1 ed h2
    exact ⟨_, e2, rp, by simpa using hpre, hp1⟩
  · simp only [hc] at hpre
    have hl : lookupD (setD ed "PhysicalResourceId" (.vstr env.freshUuid))
        "ResourceProperties" = some (.vdict rpd) := by
      rw [lookupD_setD_ne _ _ _ _ (by decide)]
      exact h2
    obtain ⟨e2, rp, hp1⟩ := hphase1 _ hl
    exact ⟨_, e2, rp, by simpa using hpre, hp1⟩

/-- How one invocation runs once the setup steps succeed. -/
theorem handler_run_eq (env : Env) (ev event1 event2 rp : Value)
    (hpre : handlerPre env ev = .ok event1)
    (hp1 : handlerPhase1 event1 = .ok (event2, rp)) :
    runHandler env ev =
      (match handlerPhase2 env event2 rp { physId := physIdOf event2 } [] with
       | (.ok _, s') => (.ok "OK", s')
       | (.error e, s') =>
           (.ok "OK", s' ++ [.signal (.failed (physIdOf event2) (strE e))])) ∧
    phase2Outcome env ev =
      some (handlerPhase2 env event2 rp { physId := physIdOf event2 } []).1 := by
  simp only [runHandler, handler, phase2Outcome, hpre, hp1]
  exact ⟨trivial, trivial⟩

/-! ## Claim C1: top-level error handling of the handler -/

/-- Claim C1, counterexample.  The claim states that for every inbound
event no exception escapes the handler and every failure is answered with
a completion signal.  An event with no `ResourceProperties` member raises
`KeyError` inside the try block before `lambda_response` is assigned (line
42); the except clause then reads the unassigned local `lambda_response`
(line 70), so the handler raises `UnboundLocalError`: the exception
escapes, no signal at all is emitted, and the sentinel OK is not
returned. -/
theorem claim1_counterexample :
    runHandler envX (mkDict [("RequestType", .vstr "Delete"), ("StackId", .vstr "stack-1")]) =
      (.error (.nameError "local variable lambda_response referenced before assignment"),
       []) := rfl

/-- Claim C1, amended.  For every inbound event whose normalized form is a
mapping carrying a mapping under `ResourceProperties` (so the response
object is constructed), the handler returns the sentinel OK — no exception
escapes — and every exception raised during structure conversion or
lifecycle execution (the remainder of the try block) is caught at the top
level and translated into exactly one failure completion signal carrying
the stringified cause. -/
theorem claim1_amended_holds (env : Env) (ev : Value) (ed rpd : VDict)
    (h1 : jsonify ev = .vdict ed)
    (h2 : lookupD ed "ResourceProperties" = some (.vdict rpd)) :
    (runHandler env ev).1 = .ok "OK" ∧
    (∀ e, phase2Outcome env ev = some (.error e) →
      ∃ pid, ((runHandler env ev).2).filter Eff.isSignal =
        [.signal (.failed pid (strE e))]) := by
  obtain ⟨event1, event2, rp, hpre, hp1⟩ := pre_phase1_ok env ev ed rpd h1 h2
  obtain ⟨hrun, hout⟩ := handler_run_eq env ev event1 event2 rp hpre hp1
  rcases hp2 : handlerPhase2 env event2 rp { physId := physIdOf event2 } [] with ⟨r2, s2⟩
  rw [hp2] at hrun hout
  cases r2 with
  | ok u =>
      constructor
      · rw [hrun]
      · intro e he
        rw [hout] at he
        simp at he
  | error e2 =>
      have hsig : s2.filter Eff.isSignal = [] := by
        simpa using eans_phase2 env event2 rp { physId := physIdOf event2 } [] e2 s2 hp2
      constructor
      · rw [hrun]
      · intro e he
        rw [hout] at he
        have he2 : e2 = e := by
          injection he with h3
          injection h3
        subst he2
        refine ⟨physIdOf event2, ?_⟩
        rw [hrun]
        simp [List.filter_append, hsig, Eff.isSignal]

/-- Claim C1, witness for the amended theorem: a minimal event with a
mapping-valued `ResourceProperties` (the missing `StackId` will raise a
`KeyError` inside the try, which is caught and answered). -/
theorem claim1_witness :
    (jsonify (mkDict [("ResourceProperties",
        mkDict [("DistributionConfig", mkDict [("Comment", .vstr "x")])])]) =
      .vdict (VDict.ofList [("ResourceProperties",
        mkDict [("DistributionConfig", mkDict [("Comment", .vstr "x")])])])) ∧
    (lookupD (VDict.ofList [("ResourceProperties",
        mkDict [("DistributionConfig", mkDict [("Comment", .vstr "x")])])])
        "ResourceProperties" =
      some (.vdict (VDict.ofList [("DistributionConfig", mkDict [("Comment", .vstr "x")])]))) ∧
    ((runHandler envX (mkDict [("ResourceProperties",
        mkDict [("DistributionConfig", mkDict [("Comment", .vstr "x")])])])).1 = .ok "OK") :=
  ⟨rfl, rfl,
    (claim1_amended_holds envX
      (mkDict [("ResourceProperties",
        mkDict [("DistributionConfig", mkDict [("Comment", .vstr "x")])])])
      (VDict.ofList [("ResourceProperties",
        mkDict [("DistributionConfig", mkDict [("Comment", .vstr "x")])])])
      (VDict.ofList [("DistributionConfig", mkDict [("Comment", .vstr "x")])])
      rfl rfl).1⟩

end CloudFrontCR
